import Mathlib

/-!
Verification of `myproject/users/views.py` (django-notes).

The file defines three Django view functions: `register_view`, `login_view`
and `logout_view`.  They dispatch on the HTTP method, delegate validation
and persistence to `UserCreationForm` / `AuthenticationForm`, and use the
`django.contrib.auth` session helpers `login` / `logout`.

The embedding below mirrors the view functions line by line.  The framework
form classes are external to the repository, so their behaviour (validity of
submitted data, saving a user, looking up the authenticated user) is kept
abstract as a `Framework` record of operations; the views are parametric in
it, exactly as the Python code is parametric in what the framework does.
Application state (the user table and the session) is passed explicitly, and
each view additionally returns the list of framework side-effect calls it made
(`save`, `login`, `logout`), so that claims about which helpers run on which
branch are directly observable.
-/

namespace Users

/-- A user record; only its identity matters to the view code. -/
abbrev User := String

/-- The submitted form data, `request.POST`: a multidict of string pairs. -/
abbrev PostData := List (String × String)

/-- The part of an incoming HTTP request the views can observe:
`request.method` and `request.POST`.  `meta` stands for every other
attribute of the request object (headers, cookies, ...), which the view
code never reads. -/
structure Request where
  method : String
  postData : PostData
  meta : List (String × String)
deriving DecidableEq, Repr

/-- Application state owned by the framework: the persisted user records
and the current session (`none` when anonymous). -/
structure AppState where
  users : List User
  session : Option User
deriving DecidableEq, Repr

/-- A form object as it reaches the template context: either an unbound
(empty) form, or a form bound to the submitted data.  The two form classes
used by the views are distinguished. -/
inductive Form where
  | creationUnbound : Form
  | creationBound : PostData → Form
  | authUnbound : Form
  | authBound : PostData → Form
deriving DecidableEq, Repr

/-- The value a view returns: `render(request, template, {'form': form})`
or `redirect(target)`. -/
inductive Response where
  | rendered : String → Form → Response
  | redirect : String → Response
deriving DecidableEq, Repr

/-- A framework side effect performed by a view: `form.save()`,
`login(request, user)` or `logout(request)`. -/
inductive Event where
  | save : Event
  | sessionLogin : User → Event
  | sessionLogout : Event
deriving DecidableEq, Repr

/-- The operations the views delegate to the framework's form classes.
`creationValid d us` is `UserCreationForm(d).is_valid()` against user table
`us`; `creationSave d us` is `form.save()`, returning the created user and
the updated table; `authValid d us` is `AuthenticationForm(data=d).is_valid()`;
`authGetUser d us` is `form.get_user()`, defined when the form was valid. -/
structure Framework where
  creationValid : PostData → List User → Bool
  creationSave : PostData → List User → User × List User
  authValid : PostData → List User → Bool
  authGetUser : PostData → List User → User

/-- The session helper `django.contrib.auth.login(request, user)`:
attaches `user` to the session. -/
def sessionLoginHelper (st : AppState) (u : User) : AppState :=
  { st with session := some u }

/-- The session helper `django.contrib.auth.logout(request)`:
flushes the session. -/
def sessionLogoutHelper (st : AppState) : AppState :=
  { st with session := none }

/-- What a view call produces: the returned value (`none` when the Python
function falls off its end and returns `None`), the application state after
the call, and the framework side effects performed, in order. -/
structure Outcome where
  response : Option Response
  state : AppState
  events : List Event
deriving DecidableEq, Repr

/-- `register_view` (views.py lines 6-18).  On POST it builds
`UserCreationForm(request.POST)`; if valid it runs
`login(request, form.save())` and returns `redirect('posts:list')`.
Otherwise (invalid POST falls through, non-POST builds an unbound form)
it returns `render(request, 'users/register.html', {'form': form})`. -/
def register_view (fw : Framework) (request : Request) (st : AppState) : Outcome :=
  if request.method = "POST" then
    let form := Form.creationBound request.postData
    if fw.creationValid request.postData st.users then
      let saved := fw.creationSave request.postData st.users
      let st1 : AppState := { st with users := saved.2 }
      { response := some (Response.redirect "posts:list")
        state := sessionLoginHelper st1 saved.1
        events := [Event.save, Event.sessionLogin saved.1] }
    else
      { response := some (Response.rendered "users/register.html" form)
        state := st
        events := [] }
  else
    { response := some (Response.rendered "users/register.html" Form.creationUnbound)
      state := st
      events := [] }

/-- `login_view` (views.py lines 21-31).  On POST it builds
`AuthenticationForm(data=request.POST)`; if valid it runs
`login(request, form.get_user())` and returns `redirect('posts:list')`.
Otherwise it returns `render(request, 'users/login.html', {'form': form})`
with the bound (invalid POST) or unbound (non-POST) form. -/
def login_view (fw : Framework) (request : Request) (st : AppState) : Outcome :=
  if request.method = "POST" then
    let form := Form.authBound request.postData
    if fw.authValid request.postData st.users then
      let user := fw.authGetUser request.postData st.users
      { response := some (Response.redirect "posts:list")
        state := sessionLoginHelper st user
        events := [Event.sessionLogin user] }
    else
      { response := some (Response.rendered "users/login.html" form)
        state := st
        events := [] }
  else
    { response := some (Response.rendered "users/login.html" Form.authUnbound)
      state := st
      events := [] }

/-- `logout_view` (views.py lines 35-38).  On POST it runs
`logout(request)` and returns `redirect('posts:list')`.  There is no
`else` branch: on any other method the function body ends without a
`return`, so Python returns `None`. -/
def logout_view (request : Request) (st : AppState) : Outcome :=
  if request.method = "POST" then
    { response := some (Response.redirect "posts:list")
      state := sessionLogoutHelper st
      events := [Event.sessionLogout] }
  else
    { response := none
      state := st
      events := [] }

/-- A concrete framework instantiation used by witnesses: registration data
is valid when it names a fresh username, authentication succeeds when the
named user exists. -/
def exFw : Framework where
  creationValid d us := match d.lookup "username" with
    | some u => !(us.contains u)
    | none => false
  creationSave d us := match d.lookup "username" with
    | some u => (u, us ++ [u])
    | none => ("", us)
  authValid d us := match d.lookup "username" with
    | some u => us.contains u
    | none => false
  authGetUser d _ := (d.lookup "username").getD ""

/-- A concrete starting state for witnesses: one existing user, anonymous
session. -/
def exSt : AppState := { users := ["alice"], session := none }

/-- Claim C1, counterexample: a GET request to `logout_view` does not return
a rendered response with an empty form — the function returns `None`, since
`logout_view` has no `else` branch. -/
theorem get_logout_no_rendered_form :
    (logout_view { method := "GET", postData := [], meta := [] } exSt).response = none := by
  decide

/-- Claim C1 (amended): for every GET request, `register_view` and
`login_view` return a rendered response containing an empty (unbound) form,
while `logout_view` returns no response at all. -/
theorem get_renders_empty_form (fw : Framework) (r : Request) (st : AppState)
    (h : r.method = "GET") :
    (register_view fw r st).response =
      some (Response.rendered "users/register.html" Form.creationUnbound) ∧
    (login_view fw r st).response =
      some (Response.rendered "users/login.html" Form.authUnbound) ∧
    (logout_view r st).response = none := by
  simp [register_view, login_view, logout_view, h]

/-- Claim C1, witness: the amended claim evaluated on a concrete GET
request. -/
theorem get_renders_empty_form_witness :
    (register_view exFw { method := "GET", postData := [], meta := [] } exSt).response =
      some (Response.rendered "users/register.html" Form.creationUnbound) ∧
    (login_view exFw { method := "GET", postData := [], meta := [] } exSt).response =
      some (Response.rendered "users/login.html" Form.authUnbound) ∧
    (logout_view { method := "GET", postData := [], meta := [] } exSt).response = none :=
  get_renders_empty_form exFw { method := "GET", postData := [], meta := [] } exSt rfl

/-- Claim C2: every successful POST (valid form for register and login, any
POST for logout) returns a redirect to the post list view `posts:list`. -/
theorem post_success_redirects (fw : Framework) (r : Request) (st : AppState)
    (h : r.method = "POST") :
    (fw.creationValid r.postData st.users = true →
      (register_view fw r st).response = some (Response.redirect "posts:list")) ∧
    (fw.authValid r.postData st.users = true →
      (login_view fw r st).response = some (Response.redirect "posts:list")) ∧
    (logout_view r st).response = some (Response.redirect "posts:list") := by
  refine ⟨fun hv => ?_, fun hv => ?_, ?_⟩
  · simp [register_view, h, hv]
  · simp [login_view, h, hv]
  · simp [logout_view, h]

/-- Claim C2, witness: the redirect on concrete successful POSTs (a fresh
username for registration, an existing one for login). -/
theorem post_success_redirects_witness :
    ((exFw.creationValid [("username", "bob")] exSt.users = true →
      (register_view exFw { method := "POST", postData := [("username", "bob")], meta := [] }
        exSt).response = some (Response.redirect "posts:list")) ∧
    (exFw.authValid [("username", "bob")] exSt.users = true →
      (login_view exFw { method := "POST", postData := [("username", "bob")], meta := [] }
        exSt).response = some (Response.redirect "posts:list")) ∧
    (logout_view { method := "POST", postData := [("username", "bob")], meta := [] }
        exSt).response = some (Response.redirect "posts:list")) ∧
    exFw.creationValid [("username", "bob")] exSt.users = true :=
  ⟨post_success_redirects exFw
      { method := "POST", postData := [("username", "bob")], meta := [] } exSt rfl,
    by decide⟩

/-- Claim C3: an invalid POST to `register_view` or `login_view` changes
nothing: the state is untouched, no framework side effect runs, and the
same template is re-rendered with the bound form carrying the submitted
data. -/
theorem post_invalid_rerenders_unchanged (fw : Framework) (r : Request) (st : AppState)
    (h : r.method = "POST") :
    (fw.creationValid r.postData st.users = false →
      register_view fw r st =
        { response := some (Response.rendered "users/register.html"
            (Form.creationBound r.postData)),
          state := st, events := [] }) ∧
    (fw.authValid r.postData st.users = false →
      login_view fw r st =
        { response := some (Response.rendered "users/login.html"
            (Form.authBound r.postData)),
          state := st, events := [] }) := by
  refine ⟨fun hv => ?_, fun hv => ?_⟩ <;> simp [register_view, login_view, h, hv]

/-- Claim C3, witness: a concrete invalid POST (no username submitted) to
both views. -/
theorem post_invalid_rerenders_unchanged_witness :
    ((exFw.creationValid [] exSt.users = false →
      register_view exFw { method := "POST", postData := [], meta := [] } exSt =
        { response := some (Response.rendered "users/register.html" (Form.creationBound [])),
          state := exSt, events := [] }) ∧
    (exFw.authValid [] exSt.users = false →
      login_view exFw { method := "POST", postData := [], meta := [] } exSt =
        { response := some (Response.rendered "users/login.html" (Form.authBound [])),
          state := exSt, events := [] })) ∧
    exFw.creationValid [] exSt.users = false ∧ exFw.authValid [] exSt.users = false :=
  ⟨post_invalid_rerenders_unchanged exFw
      { method := "POST", postData := [], meta := [] } exSt rfl,
    by decide, by decide⟩

/-- Claim C4: on POST, `register_view` delegates everything to
`UserCreationForm`: `form.save()` runs exactly when `form.is_valid()` is
true, the user table changes only through `form.save()`, and an invalid
submission re-renders the form bound to `request.POST`. -/
theorem register_post_delegates_to_creation_form (fw : Framework) (r : Request)
    (st : AppState) (h : r.method = "POST") :
    (Event.save ∈ (register_view fw r st).events ↔
      fw.creationValid r.postData st.users = true) ∧
    (register_view fw r st).state.users =
      (if fw.creationValid r.postData st.users then
        (fw.creationSave r.postData st.users).2
      else st.users) ∧
    (fw.creationValid r.postData st.users = false →
      (register_view fw r st).response =
        some (Response.rendered "users/register.html" (Form.creationBound r.postData))) := by
  by_cases hv : fw.creationValid r.postData st.users <;>
    simp [register_view, sessionLoginHelper, h, hv]

/-- Claim C4, witness: the delegation facts evaluated on a concrete valid
registration POST. -/
theorem register_post_delegates_to_creation_form_witness :
    (Event.save ∈ (register_view exFw
        { method := "POST", postData := [("username", "carol")], meta := [] } exSt).events ↔
      exFw.creationValid [("username", "carol")] exSt.users = true) ∧
    (register_view exFw
        { method := "POST", postData := [("username", "carol")], meta := [] } exSt).state.users =
      (if exFw.creationValid [("username", "carol")] exSt.users then
        (exFw.creationSave [("username", "carol")] exSt.users).2
      else exSt.users) ∧
    (exFw.creationValid [("username", "carol")] exSt.users = false →
      (register_view exFw
          { method := "POST", postData := [("username", "carol")], meta := [] } exSt).response =
        some (Response.rendered "users/register.html"
          (Form.creationBound [("username", "carol")]))) :=
  register_post_delegates_to_creation_form exFw
    { method := "POST", postData := [("username", "carol")], meta := [] } exSt rfl

/-- Claim C5: on POST, `login_view` delegates credential checking to
`AuthenticationForm(data=request.POST)`: exactly when the form is valid,
the session helper `login` runs with `form.get_user()` and the redirect is
returned; otherwise no session helper runs at all. -/
theorem login_post_delegates_to_auth_form (fw : Framework) (r : Request)
    (st : AppState) (h : r.method = "POST") :
    (fw.authValid r.postData st.users = true →
      login_view fw r st =
        { response := some (Response.redirect "posts:list"),
          state := sessionLoginHelper st (fw.authGetUser r.postData st.users),
          events := [Event.sessionLogin (fw.authGetUser r.postData st.users)] }) ∧
    (fw.authValid r.postData st.users = false →
      (login_view fw r st).events = []) := by
  refine ⟨fun hv => ?_, fun hv => ?_⟩ <;> simp [login_view, h, hv]

/-- Claim C5, witness: the delegation facts evaluated on a concrete valid
login POST for an existing user. -/
theorem login_post_delegates_to_auth_form_witness :
    ((exFw.authValid [("username", "alice")] exSt.users = true →
      login_view exFw { method := "POST", postData := [("username", "alice")], meta := [] }
          exSt =
        { response := some (Response.redirect "posts:list"),
          state := sessionLoginHelper exSt (exFw.authGetUser [("username", "alice")] exSt.users),
          events := [Event.sessionLogin (exFw.authGetUser [("username", "alice")] exSt.users)] }) ∧
    (exFw.authValid [("username", "alice")] exSt.users = false →
      (login_view exFw { method := "POST", postData := [("username", "alice")], meta := [] }
          exSt).events = [])) ∧
    exFw.authValid [("username", "alice")] exSt.users = true :=
  ⟨login_post_delegates_to_auth_form exFw
      { method := "POST", postData := [("username", "alice")], meta := [] } exSt rfl,
    by decide⟩

/-- Claim C6: each view is a pure conditional dispatch on the HTTP method
and the submitted POST data: two requests agreeing on method and POST data,
evaluated in the same application state, produce identical outcomes in
every view, whatever else (headers, cookies, ...) differs between them. -/
theorem views_determined_by_method_and_post (fw : Framework) (r1 r2 : Request)
    (st : AppState) (hm : r1.method = r2.method) (hp : r1.postData = r2.postData) :
    register_view fw r1 st = register_view fw r2 st ∧
    login_view fw r1 st = login_view fw r2 st ∧
    logout_view r1 st = logout_view r2 st := by
  cases r1
  cases r2
  cases hm
  cases hp
  exact ⟨rfl, rfl, rfl⟩

/-- Claim C6, witness: two concrete requests that differ only in their
extra attributes give the same outcomes. -/
theorem views_determined_by_method_and_post_witness :
    register_view exFw { method := "POST", postData := [("username", "bob")], meta := [("h", "1")] }
        exSt =
      register_view exFw { method := "POST", postData := [("username", "bob")], meta := [] }
        exSt ∧
    login_view exFw { method := "POST", postData := [("username", "bob")], meta := [("h", "1")] }
        exSt =
      login_view exFw { method := "POST", postData := [("username", "bob")], meta := [] }
        exSt ∧
    logout_view { method := "POST", postData := [("username", "bob")], meta := [("h", "1")] }
        exSt =
      logout_view { method := "POST", postData := [("username", "bob")], meta := [] } exSt :=
  views_determined_by_method_and_post exFw
    { method := "POST", postData := [("username", "bob")], meta := [("h", "1")] }
    { method := "POST", postData := [("username", "bob")], meta := [] } exSt rfl rfl

/-- Claim C7: a GET request to `register_view` or `login_view` leaves the
application state unchanged and performs no framework side effect: no user
is created or modified and the session is untouched. -/
theorem get_leaves_state_unchanged (fw : Framework) (r : Request) (st : AppState)
    (h : r.method = "GET") :
    (register_view fw r st).state = st ∧ (register_view fw r st).events = [] ∧
    (login_view fw r st).state = st ∧ (login_view fw r st).events = [] := by
  simp [register_view, login_view, h]

/-- Claim C7, witness: state preservation on a concrete GET request. -/
theorem get_leaves_state_unchanged_witness :
    (register_view exFw { method := "GET", postData := [("username", "bob")], meta := [] }
        exSt).state = exSt ∧
    (register_view exFw { method := "GET", postData := [("username", "bob")], meta := [] }
        exSt).events = [] ∧
    (login_view exFw { method := "GET", postData := [("username", "bob")], meta := [] }
        exSt).state = exSt ∧
    (login_view exFw { method := "GET", postData := [("username", "bob")], meta := [] }
        exSt).events = [] :=
  get_leaves_state_unchanged exFw
    { method := "GET", postData := [("username", "bob")], meta := [] } exSt rfl

/-- Claim C8: a request to `logout_view` with any method other than POST
returns no response at all (the function falls off its end and returns
`None`), the session is not modified and no framework side effect runs. -/
theorem logout_non_post_returns_none (r : Request) (st : AppState)
    (h : r.method ≠ "POST") :
    logout_view r st = { response := none, state := st, events := [] } := by
  simp [logout_view, h]

/-- Claim C8, witness: the no-response outcome on a concrete GET request
to `logout_view`. -/
theorem logout_non_post_returns_none_witness :
    logout_view { method := "GET", postData := [], meta := [("h", "1")] } exSt =
      { response := none, state := exSt, events := [] } :=
  logout_non_post_returns_none { method := "GET", postData := [], meta := [("h", "1")] } exSt
    (by decide)

/-- Claim C9: a valid registration POST logs the new user in: `form.save()`
runs and the session helper `login` is then called with the user it
returned, so after the redirect the session is authenticated as the user
just registered. -/
theorem register_valid_post_logs_in_new_user (fw : Framework) (r : Request)
    (st : AppState) (hm : r.method = "POST")
    (hv : fw.creationValid r.postData st.users = true) :
    (register_view fw r st).events =
      [Event.save, Event.sessionLogin (fw.creationSave r.postData st.users).1] ∧
    (register_view fw r st).state.session =
      some (fw.creationSave r.postData st.users).1 ∧
    (register_view fw r st).response = some (Response.redirect "posts:list") := by
  simp [register_view, sessionLoginHelper, hm, hv]

/-- Claim C9, witness: the automatic login after a concrete valid
registration POST. -/
theorem register_valid_post_logs_in_new_user_witness :
    (register_view exFw { method := "POST", postData := [("username", "dave")], meta := [] }
        exSt).events =
      [Event.save, Event.sessionLogin (exFw.creationSave [("username", "dave")] exSt.users).1] ∧
    (register_view exFw { method := "POST", postData := [("username", "dave")], meta := [] }
        exSt).state.session =
      some (exFw.creationSave [("username", "dave")] exSt.users).1 ∧
    (register_view exFw { method := "POST", postData := [("username", "dave")], meta := [] }
        exSt).response = some (Response.redirect "posts:list") :=
  register_valid_post_logs_in_new_user exFw
    { method := "POST", postData := [("username", "dave")], meta := [] } exSt rfl (by decide)

/-- Claim C10: any request to `register_view` or `login_view` whose method
is not POST (PUT, DELETE, HEAD, ...) takes the `else` branch: the outcome
is identical to the same request with method GET, and an empty unbound form
is rendered. -/
theorem non_post_same_as_get (fw : Framework) (r : Request) (st : AppState)
    (h : r.method ≠ "POST") :
    register_view fw r st = register_view fw { r with method := "GET" } st ∧
    (register_view fw r st).response =
      some (Response.rendered "users/register.html" Form.creationUnbound) ∧
    login_view fw r st = login_view fw { r with method := "GET" } st ∧
    (login_view fw r st).response =
      some (Response.rendered "users/login.html" Form.authUnbound) := by
  simp [register_view, login_view, h]

/-- Claim C10, witness: a concrete PUT request behaves exactly like a GET
request on both views. -/
theorem non_post_same_as_get_witness :
    register_view exFw { method := "PUT", postData := [("username", "bob")], meta := [] } exSt =
      register_view exFw { method := "GET", postData := [("username", "bob")], meta := [] }
        exSt ∧
    (register_view exFw { method := "PUT", postData := [("username", "bob")], meta := [] }
        exSt).response =
      some (Response.rendered "users/register.html" Form.creationUnbound) ∧
    login_view exFw { method := "PUT", postData := [("username", "bob")], meta := [] } exSt =
      login_view exFw { method := "GET", postData := [("username", "bob")], meta := [] }
        exSt ∧
    (login_view exFw { method := "PUT", postData := [("username", "bob")], meta := [] }
        exSt).response =
      some (Response.rendered "users/login.html" Form.authUnbound) :=
  non_post_same_as_get exFw { method := "PUT", postData := [("username", "bob")], meta := [] }
    exSt (by decide)

end Users
